import Mathlib

/-!
Verification of the polling/ensemble evaluation engine in
`src/evaluation/llm_evaluation.py`.

The Python module is shallowly embedded below: pure computations become Lean
functions over `ℚ` (exact rationals idealise the float arithmetic), `String`
and `List`; calls that can raise become `Except String`; the external judge
backends (cohere / anthropic / openai SDK calls and `deepeval.evaluate`) are
parameters (`Option`-valued responses, a `JudgeOracle` for per-case verdicts),
since the engine treats them as black boxes that answer one call at a time.
The unconditional `TypeError` at the metric construction (line 353 passes the
keyword `model` to a constructor whose parameter is `evaluation_model`) is
modelled faithfully: `evaluate_answer_correctness` raises it before any
backend is consulted, and the engine loops propagate it.
-/

/- ## Python-value helpers -/

/-- Truthiness of an optional cost float (`if r.cost:` in Python):
`None` and `0.0` are falsy, every other float is truthy. -/
def truthyCost : Option ℚ → Bool
  | none => false
  | some c => c != 0

/-- Truthiness of an optional string (`if not api_key:`):
`None` and the empty string are falsy. -/
def pyStrTruthy : Option String → Bool
  | none => false
  | some s => !s.isEmpty

/-- Truthiness of an optional list of strings (`if metric.__dict__.get("verdicts"):`):
`None` and the empty list are falsy. -/
def pyTruthyStrList : Option (List String) → Bool
  | none => false
  | some [] => false
  | some (_ :: _) => true

/-- A Python `bool` used where a float is expected (`threshold=show_eval_progress`):
`False` is `0`, `True` is `1`. -/
def pyBoolRat (b : Bool) : ℚ := if b then 1 else 0

/-- Python's `round(x, 3)` over exact rationals: scale by `1000`, round to the
nearest integer, and scale back.  (Python rounds binary floats half-to-even;
over exact rationals we round half-up.  The two agree everywhere except at
exact `0.0005`-halfway ties, which no claim depends on.) -/
def roundTo3 (q : ℚ) : ℚ := (round (q * 1000) : ℤ) / 1000

/- ## Environment variables -/

/-- The process environment: `os.environ` / `os.getenv`, a partial map from
variable names to values. -/
def Env : Type := String → Option String

/-- `os.environ[k]`: `.ok` value, or a `KeyError` when the variable is absent. -/
def Env.environGet (env : Env) (k : String) : Except String String :=
  match env k with
  | some v => .ok v
  | none => .error ("KeyError: " ++ k)

/- ## Judge adapters (`CustomCohere`, `CustomAnthropic`, `CustomAzureOpenAI`) -/

/-- `CustomApiKeyEnum`: the fixed environment-variable name per backend family. -/
inductive CustomApiKeyEnum where
  | cohere
  | anthropic
deriving DecidableEq

/-- `CustomApiKeyEnum.value`: the enum member's string value. -/
def CustomApiKeyEnum.value : CustomApiKeyEnum → String
  | .cohere => "COHERE_API_KEY"
  | .anthropic => "ANTHROPIC_API_KEY"

/-- `_handle_api_key(env_value, api_key)`: if no truthy explicit key is given,
read the backend family's environment variable; raise a descriptive
`ValueError` when it is absent. -/
def handle_api_key (env : Env) (env_value : CustomApiKeyEnum)
    (api_key : Option String) : Except String String :=
  if !pyStrTruthy api_key then
    match env env_value.value with
    | some v => .ok v
    | none =>
      .error ("Default api_key expects " ++ env_value.value ++
        " environment variable. Check that you have this variable or pass in another api_key.")
  else .ok (api_key.getD "")

/-- A constructed `CustomCohere` adapter instance. -/
structure CustomCohere where
  model : String
  api_key : String
deriving DecidableEq

/-- `CustomCohere.__init__(model, api_key=None)`: stores the model name and
resolves the key via `_handle_api_key` (raising at construction on failure). -/
def CustomCohere.init (env : Env) (model : String)
    (api_key : Option String := none) : Except String CustomCohere :=
  (handle_api_key env CustomApiKeyEnum.cohere api_key).map fun key =>
    { model := model, api_key := key }

/-- A non-streamed chat response from the Cohere backend. -/
structure CohereResponse where
  text : String
deriving DecidableEq

/-- `CustomCohere.generate(prompt)`: the backend call's outcome is the
parameter (`none` models a falsy/absent response; a present SDK response
object is always truthy).  Returns `response.text`, or the sentinel when the
response is falsy.  Never raises. -/
def CustomCohere.generate (_self : CustomCohere) (response : Option CohereResponse) :
    String :=
  match response with
  | some r => r.text
  | none => "No message returned"

/-- `CustomCohere.a_generate(prompt)`: identical handling to `generate`. -/
def CustomCohere.a_generate (_self : CustomCohere) (response : Option CohereResponse) :
    String :=
  match response with
  | some r => r.text
  | none => "No message returned"

/-- A constructed `CustomAnthropic` adapter instance. -/
structure CustomAnthropic where
  model : String
  api_key : String
deriving DecidableEq

/-- `CustomAnthropic.__init__(model, api_key=None)`. -/
def CustomAnthropic.init (env : Env) (model : String)
    (api_key : Option String := none) : Except String CustomAnthropic :=
  (handle_api_key env CustomApiKeyEnum.anthropic api_key).map fun key =>
    { model := model, api_key := key }

/-- One content block of an Anthropic message. -/
structure ContentBlock where
  text : String
deriving DecidableEq

/-- A message returned by the Anthropic backend. -/
structure AnthropicMessage where
  content : List ContentBlock
deriving DecidableEq

/-- `CustomAnthropic.generate(prompt)`: returns `message.content[0].text` when
the message is truthy — an `IndexError` escapes when `content` is empty — and
the sentinel only when the message itself is falsy. -/
def CustomAnthropic.generate (_self : CustomAnthropic)
    (message : Option AnthropicMessage) : Except String String :=
  match message with
  | some m =>
    match m.content with
    | [] => .error "IndexError: list index out of range"
    | b :: _ => .ok b.text
  | none => .ok "no message returned"

/-- `CustomAnthropic.a_generate(prompt)`: identical handling to `generate`. -/
def CustomAnthropic.a_generate (_self : CustomAnthropic)
    (message : Option AnthropicMessage) : Except String String :=
  match message with
  | some m =>
    match m.content with
    | [] => .error "IndexError: list index out of range"
    | b :: _ => .ok b.text
  | none => .ok "no message returned"

/-- A constructed `CustomAzureOpenAI` adapter instance: only the deployment
name is stored; no credential is read at construction. -/
structure CustomAzureOpenAI where
  model : String
deriving DecidableEq

/-- `CustomAzureOpenAI.__init__(deployment_name)`: total — construction never
consults the environment and never raises. -/
def CustomAzureOpenAI.init (deployment_name : String) : CustomAzureOpenAI :=
  { model := deployment_name }

/-- An `AzureOpenAI` SDK client as configured by `load_model`. -/
structure AzureClient where
  azure_endpoint : String
  api_key : Option String
  api_version : Option String
deriving DecidableEq

/-- `CustomAzureOpenAI.load_model()`: reads `AZURE_OPENAI_ENDPOINT` with
`os.environ[...]` (a `KeyError` when absent) and the key/version with
`os.getenv` (silently `None` when absent).  Runs at call time, inside
`generate`/`a_generate`, never at construction. -/
def CustomAzureOpenAI.load_model (env : Env) : Except String AzureClient :=
  match env "AZURE_OPENAI_ENDPOINT" with
  | some ep =>
    .ok { azure_endpoint := ep
          api_key := env "AZURE_OPENAI_API_KEY"
          api_version := env "AZURE_OPENAI_API_VERSION" }
  | none => .error "KeyError: AZURE_OPENAI_ENDPOINT"

/-- One choice of an Azure OpenAI chat completion
(`completion.choices[i].message.content`). -/
structure AzureChoice where
  message_content : String
deriving DecidableEq

/-- A chat completion returned by the Azure OpenAI backend. -/
structure AzureCompletion where
  choices : List AzureChoice
deriving DecidableEq

/-- `CustomAzureOpenAI.generate(prompt)`: first loads the client (which can
raise a `KeyError` for the endpoint variable), then returns
`completion.choices[0].message.content` when the completion is truthy — an
`IndexError` escapes on an empty `choices` list — and the sentinel only when
the completion itself is falsy. -/
def CustomAzureOpenAI.generate (_self : CustomAzureOpenAI) (env : Env)
    (completion : Option AzureCompletion) : Except String String :=
  match CustomAzureOpenAI.load_model env with
  | .error e => .error e
  | .ok _client =>
    match completion with
    | some c =>
      match c.choices with
      | [] => .error "IndexError: list index out of range"
      | ch :: _ => .ok ch.message_content
    | none => .ok "no message returned"

/-- `CustomAzureOpenAI.a_generate(prompt)`: identical handling to `generate`. -/
def CustomAzureOpenAI.a_generate (_self : CustomAzureOpenAI) (env : Env)
    (completion : Option AzureCompletion) : Except String String :=
  match CustomAzureOpenAI.load_model env with
  | .error e => .error e
  | .ok _client =>
    match completion with
    | some c =>
      match c.choices with
      | [] => .error "IndexError: list index out of range"
      | ch :: _ => .ok ch.message_content
    | none => .ok "no message returned"

/- ## Evaluation data model -/

/-- `deepeval.test_case.LLMTestCase` as used here: the Evaluation Input triple. -/
structure LLMTestCase where
  input : String
  actual_output : String
  retrieval_context : List String
deriving DecidableEq

instance : Inhabited LLMTestCase := ⟨⟨"", "", []⟩⟩

/-- A judge identity as accepted by the engine: either a plain model-name
string, or a custom `DeepEvalBaseLLM` adapter instance exposing a `.model`
attribute (`model if isinstance(model, str) else model.model`). -/
inductive EvalModel where
  | named : String → EvalModel
  | custom : String → EvalModel
deriving DecidableEq

/-- `model if isinstance(model, str) else model.model`. -/
def EvalModel.modelName : EvalModel → String
  | .named s => s
  | .custom s => s

/-- An `AnswerCorrectnessMetric(model, threshold)` instance: the judge it runs
on and the pass/fail threshold handed to `GEval`.  (The constructor's
documented default threshold is `0.8`.) -/
structure AnswerCorrectnessMetric where
  model : EvalModel
  threshold : ℚ
deriving DecidableEq

/-- `EvalResponse`: the flattened per-(test case, judge) record. -/
structure EvalResponse where
  score : ℚ
  reason : String
  metric : String
  cost : Option ℚ
  eval_model : String
  verdicts : Option (List String) := none
  input : Option String := none
  actual_output : Option String := none
  retrieval_context : Option (List String) := none
deriving DecidableEq

/-- The post-evaluation state of a measured metric, as `load_eval_response`
reads it (`metric.score`, `metric.reason`, `metric.evaluation_cost`, ...). -/
structure MeasuredMetric where
  score : ℚ
  reason : String
  metric_class : String
  evaluation_cost : Option ℚ
  evaluation_model : String
  verdicts : Option (List String)
deriving DecidableEq

/-- `load_eval_response(metric, test_case, return_context_data=True)` on the
single-metric path taken by the engine: a pure repackaging of the measured
metric state and its test case. -/
def load_eval_response (metric : MeasuredMetric) (test_case : LLMTestCase)
    (return_context_data : Bool := true) : EvalResponse :=
  { score := metric.score
    reason := metric.reason
    metric := metric.metric_class
    cost := metric.evaluation_cost
    eval_model := metric.evaluation_model
    verdicts := if pyTruthyStrList metric.verdicts then metric.verdicts else none
    input := some test_case.input
    actual_output := some test_case.actual_output
    retrieval_context :=
      if return_context_data then some test_case.retrieval_context else none }

/-- Modelled from the spec: the external judge backend behind
`deepeval.evaluate` — §4.1's uniform capability "score a test case against
criteria, return score + reasoning + cost".  The engine would consult it once
per (metric, test case) pair; with the `TypeError` raised at the metric
construction (see `evaluate_answer_correctness`) the backend is in fact never
reached. -/
structure JudgeOracle where
  score : AnswerCorrectnessMetric → LLMTestCase → ℚ
  reason : AnswerCorrectnessMetric → LLMTestCase → String
  cost : AnswerCorrectnessMetric → LLMTestCase → Option ℚ
  verdicts : AnswerCorrectnessMetric → LLMTestCase → Option (List String)

/- ## The polling evaluation engine -/

/-- A constructed `PollingEvaluation` instance. -/
structure PollingEvaluation where
  batch_size : ℤ
deriving DecidableEq

/-- `PollingEvaluation.__init__(batch_size=10)`: a batch size of at most `1`
is rejected with a `ValueError` at construction. -/
def PollingEvaluation.init (batch_size : ℤ := 10) : Except String PollingEvaluation :=
  if batch_size ≤ 1 then .error "Batch size must be greater than 1"
  else .ok { batch_size := batch_size }

/-- The per-judge return of `evaluate_answer_correctness` (`results_dict`):
model name, per-case responses, per-case scores, and the total cost across
cases — `none` stands for the `"N/A"` sentinel. -/
structure ACResults where
  model : String
  results : List EvalResponse
  scores : List ℚ
  cost : Option ℚ
deriving DecidableEq

/-- The `TypeError` raised by `AnswerCorrectnessMetric(model=..., threshold=...)`
at line 353: the constructor (line 209) declares its parameter as
`evaluation_model` and accepts no `**kwargs`, so the keyword `model` does not
bind. -/
def typeErrorMsg : String :=
  "TypeError: __init__() got an unexpected keyword argument \x27model\x27"

/-- `PollingEvaluation.evaluate_answer_correctness(test_cases, model,
threshhold=0.8, return_raw=False)`: computes the model name (line 352), then
calls `AnswerCorrectnessMetric(model=model, threshold=threshhold)` (line 353).
The constructor's parameter is named `evaluation_model`, not `model`, so the
call raises a `TypeError` unconditionally, before any judge is contacted;
lines 354–375 (the deepeval run, the `load_eval_response` flattening and the
truthy-cost totalling) are unreachable, and neither the judge backend nor the
`threshhold` argument is ever consulted. -/
def evaluate_answer_correctness (_O : JudgeOracle) (_test_cases : List LLMTestCase)
    (model : EvalModel) (_threshhold : ℚ) : Except String ACResults :=
  let _model_name := model.modelName
  .error typeErrorMsg

/-- A raw element of the `test_cases` argument of `polling_evaluation`: a
structured `LLMTestCase`, a dict (whose three relevant keys may each be
missing), or any other Python value. -/
inductive RawTestCase where
  | structured : LLMTestCase → RawTestCase
  | record : Option String → Option String → Option (List String) → RawTestCase
  | other : RawTestCase
deriving DecidableEq

/-- Whether a raw element is an `LLMTestCase` instance. -/
def RawTestCase.isStructured : RawTestCase → Bool
  | .structured _ => true
  | _ => false

/-- Whether a raw element is a dict. -/
def RawTestCase.isRecord : RawTestCase → Bool
  | .record _ _ _ => true
  | _ => false

/-- Modelled from the spec: `LLMTestCase(**data)` for a dict `data` —
deepeval's constructor is external to this repository, and the spec's
Evaluation Input is the triple `input`/`actual_output`/`retrieval_context`,
so construction from a record requires all three keys; any other value
(a missing key, or a non-dict) makes the constructor call raise. -/
def RawTestCase.toTestCase : RawTestCase → Option LLMTestCase
  | .record (some i) (some a) (some c) =>
    some { input := i, actual_output := a, retrieval_context := c }
  | _ => none

/-- `[LLMTestCase(**data) for data in test_cases]`: convert every element in
order; the first failing constructor call aborts the whole comprehension
(its exception is caught by the caller). -/
def convertAll : List RawTestCase → Option (List LLMTestCase)
  | [] => some []
  | t :: ts =>
    match t.toTestCase, convertAll ts with
    | some tc, some tcs => some (tc :: tcs)
    | _, _ => none

/-- The `ValueError` message raised by `_check_test_case_types`. -/
def requiredKeysMsg : String :=
  "Test cases must be a list of LLMTestCase objects or a list of dictionaries containing the keys: [\x27input\x27, \x27actual_output\x27, \x27retrieval_context\x27]"

/-- `PollingEvaluation._check_test_case_types(test_cases)`: pass a list of
`LLMTestCase` objects through unchanged; if the first element is a dict, try
to convert every element (any failure is caught and re-raised as the
`ValueError` above); otherwise raise that `ValueError` directly. -/
def check_test_case_types (test_cases : List RawTestCase) :
    Except String (List LLMTestCase) :=
  if test_cases.all RawTestCase.isStructured then
    .ok (test_cases.filterMap fun t =>
      match t with
      | .structured tc => some tc
      | _ => none)
  else
    match test_cases.head? with
    | some (.record _ _ _) =>
      match convertAll test_cases with
      | some tcs => .ok tcs
      | none => .error requiredKeysMsg
    | _ => .error requiredKeysMsg

/-- The slice `test_cases[i*batch_size : (i+1)*batch_size]` for
`i in range(ceil(len(test_cases)/batch_size))`. -/
def batchSlices (b : ℕ) (l : List LLMTestCase) : List (List LLMTestCase) :=
  (List.range ((l.length + b - 1) / b)).map fun i => (l.drop (i * b)).take b

/-- One judge's running accumulator inside `results_dict`. -/
structure JudgeAccum where
  results : List EvalResponse
  scores : List ℚ
  cost_per_batch : List (Option ℚ)
deriving DecidableEq

/-- The initial accumulator `{"results": [], "scores": [], "cost_per_batch": []}`. -/
def emptyAccum : JudgeAccum := { results := [], scores := [], cost_per_batch := [] }

/-- Extending an accumulator with one batch's `evaluate_answer_correctness`
output (`extend`/`extend`/`append` on the three lists). -/
def JudgeAccum.extendWith (a : JudgeAccum) (r : ACResults) : JudgeAccum :=
  { results := a.results ++ r.results
    scores := a.scores ++ r.scores
    cost_per_batch := a.cost_per_batch ++ [r.cost] }

/-- The body of the inner `for model in models` loop: evaluate the batch with
this judge — a raised error propagates (spec §7: no retry, the run aborts) —
and extend that judge's entry of `results_dict` (keyed by model name). -/
def judgeStep (O : JudgeOracle) (threshhold : ℚ) (batch : List LLMTestCase)
    (rd : String → JudgeAccum) (model : EvalModel) :
    Except String (String → JudgeAccum) :=
  let model_name := model.modelName
  match evaluate_answer_correctness O batch model threshhold with
  | .error e => .error e
  | .ok model_results =>
    .ok fun name =>
      if name = model_name then (rd name).extendWith model_results else rd name

/-- The inner `for model in models` loop over one batch: sequential, stopping
at the first raised error. -/
def runJudges (O : JudgeOracle) (threshhold : ℚ) (batch : List LLMTestCase) :
    List EvalModel → (String → JudgeAccum) → Except String (String → JudgeAccum)
  | [], rd => .ok rd
  | m :: ms, rd =>
    match judgeStep O threshhold batch rd m with
    | .error e => .error e
    | .ok rd' => runJudges O threshhold batch ms rd'

/-- The outer `for i in range(num_batches)` loop: each batch through every
judge, sequential, stopping at the first raised error. -/
def runBatches (O : JudgeOracle) (threshhold : ℚ) (models : List EvalModel) :
    List (List LLMTestCase) → (String → JudgeAccum) → Except String (String → JudgeAccum)
  | [], rd => .ok rd
  | bt :: bts, rd =>
    match runJudges O threshhold bt models rd with
    | .error e => .error e
    | .ok rd' => runBatches O threshhold models bts rd'

/-- `np.mean(np.array(rows), axis=0)` for the rectangular matrix the engine
builds (judges × test cases): entry `j` is the column-`j` sum divided by the
number of rows. -/
def npMeanAxis0 (rows : List (List ℚ)) : List ℚ :=
  (List.range (rows.headD []).length).map fun j =>
    (rows.map fun r => r.getD j 0).sum / rows.length

/-- `np.mean(v)` for a vector. -/
def npMean (v : List ℚ) : ℚ := v.sum / v.length

/-- The aggregate returned by `polling_evaluation`: the per-judge accumulators
(`responses`, keyed by model name — names never configured keep the empty
accumulator), the per-test-case mean vector, and the rounded overall score. -/
structure PollingResults where
  responses : String → JudgeAccum
  mean_scores : List ℚ
  evaluation_score : ℚ

/-- The body of `polling_evaluation` after input validation: partition into
batches and drive every batch through every judge — the judge's threshold
argument receives the `show_eval_progress` boolean, positionally.  A raised
error (here always the metric-construction `TypeError`, at the first
(batch, judge) pair) aborts the run; only when no such pair exists (no test
cases, or no judges) does the loop complete and the aggregation run. -/
def pollingCore (O : JudgeOracle) (pe : PollingEvaluation)
    (test_cases : List LLMTestCase) (models : List EvalModel)
    (show_eval_progress : Bool) : Except String PollingResults :=
  let b := pe.batch_size.toNat
  let model_names := models.map EvalModel.modelName
  match runBatches O (pyBoolRat show_eval_progress) models
      (batchSlices b test_cases) (fun _ => emptyAccum) with
  | .error e => .error e
  | .ok results_dict =>
    let model_scores := model_names.map fun name => (results_dict name).scores
    let mean_scores := npMeanAxis0 model_scores
    let evaluation_score := npMean mean_scores
    .ok { responses := results_dict
          mean_scores := mean_scores
          evaluation_score := roundTo3 evaluation_score }

/-- `PollingEvaluation.polling_evaluation(test_cases, models,
show_eval_progress=False)`: validate/convert the input, then run the ensemble
loop — which, for any non-empty test-case list with at least one judge,
aborts with the metric-construction `TypeError`. -/
def polling_evaluation (O : JudgeOracle) (pe : PollingEvaluation)
    (test_cases : List RawTestCase) (models : List EvalModel)
    (show_eval_progress : Bool := false) : Except String PollingResults :=
  match check_test_case_types test_cases with
  | .error e => .error e
  | .ok tcs => pollingCore O pe tcs models show_eval_progress

/- ## Concrete instances used to exercise the definitions -/

/-- A concrete judge backend: the score is the length of the query, every
case costs `1/2`. -/
def demoOracle : JudgeOracle :=
  { score := fun _ tc => (tc.input.length : ℚ)
    reason := fun _ _ => "demo"
    cost := fun _ _ => some (1 / 2)
    verdicts := fun _ _ => none }

/-- Three concrete test cases. -/
def demoCases : List LLMTestCase :=
  [{ input := "q1", actual_output := "a1", retrieval_context := ["c1"] },
   { input := "q22", actual_output := "a2", retrieval_context := [] },
   { input := "q333", actual_output := "a3", retrieval_context := ["c3"] }]

/-- Seven concrete test cases (the spec's 7-case scenario). -/
def demoCases7 : List LLMTestCase :=
  (List.range 7).map fun k =>
    { input := String.mk (List.replicate (k + 1) (Char.ofNat 113))
      actual_output := "ans"
      retrieval_context := [] }

/-- Two judges with distinct model names. -/
def demoModels : List EvalModel := [EvalModel.named "a", EvalModel.custom "b"]

/-- A concrete Cohere adapter instance. -/
def demoCohere : CustomCohere := { model := "command-r", api_key := "k" }

/-- A concrete Anthropic adapter instance. -/
def demoAnthropic : CustomAnthropic := { model := "claude", api_key := "k" }

/-- A concrete Azure OpenAI adapter instance. -/
def demoAzure : CustomAzureOpenAI := { model := "gpt" }

/-- An environment with no variables set. -/
def emptyEnv : Env := fun _ => none

/-- The result of the one kind of run that completes without error: no
(batch, judge) pair exists to crash on (here: no test cases and no judges). -/
def pollingEmptyRes : PollingResults :=
  { responses := fun _ => emptyAccum
    mean_scores := npMeanAxis0 []
    evaluation_score := roundTo3 (npMean (npMeanAxis0 [])) }

/- ## Lemmas: batching -/

theorem batchSlices_nil {b : ℕ} (hb : 1 ≤ b) : batchSlices b [] = [] := by
  unfold batchSlices
  have h : (([] : List LLMTestCase).length + b - 1) / b = 0 :=
    Nat.div_eq_of_lt (by simp; omega)
  rw [h]
  rfl

theorem batchSlices_cons {b : ℕ} (hb : 1 ≤ b) (l : List LLMTestCase) (hl : l ≠ []) :
    batchSlices b l = l.take b :: batchSlices b (l.drop b) := by
  have hpos : 0 < b := hb
  have hn : 1 ≤ l.length := List.length_pos.mpr hl
  have hnum : (l.length + b - 1) / b = (l.length - 1) / b + 1 := by
    have h1 : l.length + b - 1 = (l.length - 1) + b := by omega
    rw [h1, Nat.add_div_right _ hpos]
  have hnum' : ((l.drop b).length + b - 1) / b = (l.length - 1) / b := by
    rw [List.length_drop]
    rcases le_or_lt b l.length with h | h
    · have h1 : l.length - b + b - 1 = l.length - 1 := by omega
      rw [h1]
    · have h1 : l.length - b = 0 := by omega
      rw [h1]
      rw [Nat.div_eq_of_lt (by omega), Nat.div_eq_of_lt (by omega)]
  unfold batchSlices
  rw [hnum, hnum', List.range_succ_eq_map, List.map_cons, List.map_map]
  congr 1
  · simp
  · apply List.map_congr_left
    intro i _
    simp only [Function.comp_apply]
    rw [List.drop_drop]
    have h2 : Nat.succ i * b = i * b + b := Nat.succ_mul i b
    rw [h2, Nat.add_comm (i * b) b]

theorem batchSlices_length (b : ℕ) (l : List LLMTestCase) :
    (batchSlices b l).length = (l.length + b - 1) / b := by
  simp [batchSlices]

theorem batchSlices_flatten_aux {b : ℕ} (hb : 1 ≤ b) :
    ∀ (n : ℕ) (l : List LLMTestCase), l.length ≤ n → (batchSlices b l).flatten = l := by
  intro n
  induction n with
  | zero =>
    intro l hl
    have h : l = [] := List.length_eq_zero.mp (Nat.le_zero.mp hl)
    subst h
    rw [batchSlices_nil hb]
    rfl
  | succ n ih =>
    intro l hl
    by_cases hnil : l = []
    · subst hnil
      rw [batchSlices_nil hb]
      rfl
    · rw [batchSlices_cons hb l hnil, List.flatten_cons,
        ih (l.drop b) (by rw [List.length_drop]; have := List.length_pos.mpr hnil; omega),
        List.take_append_drop]

theorem batchSlices_flatten {b : ℕ} (hb : 1 ≤ b) (l : List LLMTestCase) :
    (batchSlices b l).flatten = l :=
  batchSlices_flatten_aux hb l.length l le_rfl

theorem batchSlices_sizes_sum {b : ℕ} (hb : 1 ≤ b) (l : List LLMTestCase) :
    ((batchSlices b l).map List.length).sum = l.length := by
  rw [← List.length_flatten, batchSlices_flatten hb]

theorem batchSlices_dropLast_aux {b : ℕ} (hb : 1 ≤ b) :
    ∀ (n : ℕ) (l : List LLMTestCase), l.length ≤ n →
      ∀ x ∈ (batchSlices b l).dropLast, x.length = b := by
  intro n
  induction n with
  | zero =>
    intro l hl x hx
    have h : l = [] := List.length_eq_zero.mp (Nat.le_zero.mp hl)
    subst h
    rw [batchSlices_nil hb] at hx
    cases hx
  | succ n ih =>
    intro l hl x hx
    by_cases hnil : l = []
    · subst hnil
      rw [batchSlices_nil hb] at hx
      cases hx
    · rw [batchSlices_cons hb l hnil] at hx
      by_cases hrest : batchSlices b (l.drop b) = []
      · rw [hrest] at hx
        cases hx
      · rw [List.dropLast_cons_of_ne_nil hrest] at hx
        rcases List.mem_cons.mp hx with rfl | hx'
        · have hdrop : l.drop b ≠ [] := by
            intro h
            apply hrest
            rw [h, batchSlices_nil hb]
          have hlt : b < l.length := by
            have h1 := List.length_pos.mpr hdrop
            rw [List.length_drop] at h1
            omega
          rw [List.length_take]
          omega
        · exact ih (l.drop b)
            (by rw [List.length_drop]; have := List.length_pos.mpr hnil; omega) x hx'

theorem batchSlices_dropLast {b : ℕ} (hb : 1 ≤ b) (l : List LLMTestCase) :
    ∀ x ∈ (batchSlices b l).dropLast, x.length = b :=
  batchSlices_dropLast_aux hb l.length l le_rfl

/- ## Lemmas: input validation -/

theorem filterMap_structured_map (tcs : List LLMTestCase) :
    (tcs.map RawTestCase.structured).filterMap (fun t =>
      match t with
      | RawTestCase.structured tc => some tc
      | _ => none) = tcs := by
  induction tcs with
  | nil => rfl
  | cons t ts ih =>
    simp only [List.map_cons, List.filterMap_cons]
    rw [ih]

theorem check_test_case_types_structured (tcs : List LLMTestCase) :
    check_test_case_types (tcs.map RawTestCase.structured) = .ok tcs := by
  unfold check_test_case_types
  have hall : (tcs.map RawTestCase.structured).all RawTestCase.isStructured = true := by
    simp [List.all_eq_true, RawTestCase.isStructured]
  rw [if_pos hall, filterMap_structured_map]

theorem convertAll_none :
    ∀ (l : List RawTestCase), (∃ x ∈ l, x.toTestCase = none) →
      convertAll l = none := by
  intro l
  induction l with
  | nil => rintro ⟨x, hx, _⟩; cases hx
  | cons hd tl ih =>
    rintro ⟨x, hx, hfail⟩
    rcases List.mem_cons.mp hx with rfl | hx'
    · simp [convertAll, hfail]
    · have h2 := ih ⟨x, hx', hfail⟩
      simp only [convertAll, h2]
      cases hd.toTestCase <;> rfl

theorem check_test_case_types_head_record_fail (l : List RawTestCase)
    (i : Option String) (a : Option String) (c : Option (List String))
    (hhead : l.head? = some (RawTestCase.record i a c))
    (hfail : ∃ x ∈ l, x.toTestCase = none) :
    check_test_case_types l = .error requiredKeysMsg := by
  match l, hhead with
  | .record i a c :: tl, _ =>
    unfold check_test_case_types
    rw [if_neg (by simp [RawTestCase.isStructured])]
    simp only [List.head?_cons]
    rw [convertAll_none _ hfail]

theorem convertAll_records (tcs : List LLMTestCase) :
    convertAll (tcs.map fun tc =>
      RawTestCase.record (some tc.input) (some tc.actual_output)
        (some tc.retrieval_context)) = some tcs := by
  induction tcs with
  | nil => rfl
  | cons t ts ih => simp [convertAll, RawTestCase.toTestCase, ih]

theorem check_test_case_types_records (tcs : List LLMTestCase) :
    check_test_case_types (tcs.map fun tc =>
      RawTestCase.record (some tc.input) (some tc.actual_output)
        (some tc.retrieval_context)) = .ok tcs := by
  cases tcs with
  | nil => rfl
  | cons t ts =>
    have hconv := convertAll_records (t :: ts)
    simp only [List.map_cons] at hconv
    unfold check_test_case_types
    rw [if_neg (by simp [RawTestCase.isStructured])]
    simp only [List.map_cons, List.head?_cons]
    rw [hconv]

theorem check_test_case_types_other (l : List RawTestCase)
    (hall : l.all RawTestCase.isStructured = false)
    (hhead : ∀ i a c, l.head? ≠ some (RawTestCase.record i a c)) :
    check_test_case_types l = .error requiredKeysMsg := by
  unfold check_test_case_types
  rw [if_neg (by simp [hall])]
  cases l with
  | nil => simp at hall
  | cons hd tl =>
    cases hd with
    | structured tc => rfl
    | record i a c => exact absurd rfl (hhead i a c)
    | other => rfl

/- ## Lemmas: the complete run -/

theorem polling_evaluation_structured (O : JudgeOracle) (pe : PollingEvaluation)
    (tcs : List LLMTestCase) (models : List EvalModel) (p : Bool) :
    polling_evaluation O pe (tcs.map RawTestCase.structured) models p =
      pollingCore O pe tcs models p := by
  unfold polling_evaluation
  rw [check_test_case_types_structured]

theorem pollingCore_ok_score (O : JudgeOracle) (pe : PollingEvaluation)
    (tcs : List LLMTestCase) (models : List EvalModel) (p : Bool)
    (res : PollingResults)
    (h : pollingCore O pe tcs models p = .ok res) :
    res.evaluation_score = roundTo3 (npMean res.mean_scores) := by
  simp only [pollingCore] at h
  cases hr : runBatches O (pyBoolRat p) models
      (batchSlices pe.batch_size.toNat tcs) (fun _ => emptyAccum) with
  | error e =>
    rw [hr] at h
    simp at h
  | ok rd =>
    rw [hr] at h
    obtain rfl := (Except.ok.inj h).symm
    rfl

theorem polling_nontrivial_error (O : JudgeOracle) (pe : PollingEvaluation)
    (tcs : List LLMTestCase) (models : List EvalModel) (p : Bool)
    (hb : 1 < pe.batch_size) (ht : tcs ≠ []) (hm : models ≠ []) :
    polling_evaluation O pe (tcs.map RawTestCase.structured) models p =
      .error typeErrorMsg := by
  have hb1 : 1 ≤ pe.batch_size.toNat := by omega
  rw [polling_evaluation_structured]
  simp only [pollingCore]
  rw [batchSlices_cons hb1 tcs ht]
  cases models with
  | nil => exact absurd rfl hm
  | cons m ms => rfl

/- ## Lemmas: rounding -/

theorem round_close (a b : ℚ) (h : |a - b| < 1 / 2) :
    |round a - round b| ≤ 1 := by
  have h1 : |a - (round a : ℚ)| ≤ 1 / 2 := abs_sub_round a
  have h2 : |b - (round b : ℚ)| ≤ 1 / 2 := abs_sub_round b
  have h4 : |((round a : ℤ) : ℚ) - ((round b : ℤ) : ℚ)| < 2 := by
    have t1 : |((round a : ℤ) : ℚ) - ((round b : ℤ) : ℚ)| ≤
        |((round a : ℤ) : ℚ) - a| + |a - ((round b : ℤ) : ℚ)| := abs_sub_le _ a _
    have t2 : |a - ((round b : ℤ) : ℚ)| ≤
        |a - b| + |b - ((round b : ℤ) : ℚ)| := abs_sub_le a b _
    have t3 : |((round a : ℤ) : ℚ) - a| = |a - ((round a : ℤ) : ℚ)| := abs_sub_comm _ a
    linarith
  have h5 : |round a - round b| < 2 := by
    have hc : ((|round a - round b| : ℤ) : ℚ) < 2 := by
      push_cast
      exact h4
    exact_mod_cast hc
  omega

theorem roundTo3_close (x y : ℚ) (h : |x - y| < 5 / 10000) :
    |roundTo3 x - roundTo3 y| ≤ 1 / 1000 := by
  have hxy : |x * 1000 - y * 1000| < 1 / 2 := by
    rw [← sub_mul, abs_mul]
    have habs : |(1000 : ℚ)| = 1000 := by norm_num
    rw [habs]
    linarith
  have hr := round_close (x * 1000) (y * 1000) hxy
  unfold roundTo3
  rw [div_sub_div_same, abs_div]
  have habs : |(1000 : ℚ)| = 1000 := by norm_num
  rw [habs]
  have hcast : |((round (x * 1000) : ℤ) : ℚ) - ((round (y * 1000) : ℤ) : ℚ)| ≤ 1 := by
    have hc : ((|round (x * 1000) - round (y * 1000)| : ℤ) : ℚ) ≤ 1 := by
      exact_mod_cast hr
    push_cast at hc
    exact hc
  calc |((round (x * 1000) : ℤ) : ℚ) - ((round (y * 1000) : ℤ) : ℚ)| / 1000
      ≤ 1 / 1000 := by gcongr

/- ## The claims -/

/-- C1 (code bug): the claim — and §8 of the spec, which asserts it for all
inputs — is the evident intent, but the program can never perform it: the
very first (batch, judge) evaluation raises the metric-construction
`TypeError` (line 353 passes the keyword `model` to a constructor whose
parameter is `evaluation_model`), so `polling_evaluation` over one test case
and one judge aborts with that error instead of returning a mean-score
vector.  This theorem evaluates the embedded code at the failing input. -/
theorem C1_type_error :
    polling_evaluation demoOracle { batch_size := 2 }
      ([{ input := "q", actual_output := "a", retrieval_context := [] }].map
        RawTestCase.structured) [EvalModel.named "m"] false =
      .error typeErrorMsg := by
  rfl

/-- C2, counterexample to the second half as stated: `0.1234` and `0.1236`
differ by `0.0002 < 0.0005` yet display differently after rounding to 3
decimals (they straddle the `0.1235` boundary). -/
theorem C2_rounding_cex :
    |(1234 / 10000 : ℚ) - 1236 / 10000| < 5 / 10000 ∧
    roundTo3 (1234 / 10000) ≠ roundTo3 (1236 / 10000) := by
  constructor
  · rw [abs_sub_comm, abs_of_nonneg (by norm_num)]
    norm_num
  · norm_num [roundTo3, round_eq]

/-- C2 (amended): for every run of `polling_evaluation` that completes
without error, the returned `evaluation_score` equals the mean of the
per-test-case mean vector rounded to 3 decimals, exactly as the code's only
return site computes it (note: because of the `TypeError` at line 353, the
only runs that complete are those with no test cases or no judges); and two
pre-rounding values that differ by less than `0.0005` yield displayed values
that differ by at most one rounding step, `0.001` — they need not be equal
(see the counterexample). -/
theorem C2_rounding_amended :
    (∀ (O : JudgeOracle) (pe : PollingEvaluation) (test_cases : List RawTestCase)
        (models : List EvalModel) (p : Bool) (res : PollingResults),
      polling_evaluation O pe test_cases models p = .ok res →
      res.evaluation_score = roundTo3 (npMean res.mean_scores)) ∧
    ∀ x y : ℚ, |x - y| < 5 / 10000 → |roundTo3 x - roundTo3 y| ≤ 1 / 1000 := by
  constructor
  · intro O pe test_cases models p res h
    unfold polling_evaluation at h
    cases hc : check_test_case_types test_cases with
    | error e =>
      rw [hc] at h
      simp at h
    | ok tcs =>
      rw [hc] at h
      exact pollingCore_ok_score O pe tcs models p res h
  · exact roundTo3_close

/-- Witness for C2 (amended): the completed empty run satisfies the rounding
equation, and the counterexample's pair of values displays within `0.001`. -/
theorem C2_rounding_amended_witness :
    (polling_evaluation demoOracle { batch_size := 2 } [] [] false =
      .ok pollingEmptyRes) ∧
    pollingEmptyRes.evaluation_score = roundTo3 (npMean pollingEmptyRes.mean_scores) ∧
    |(1234 / 10000 : ℚ) - 1236 / 10000| < 5 / 10000 ∧
    |roundTo3 (1234 / 10000) - roundTo3 (1236 / 10000)| ≤ 1 / 1000 :=
  ⟨rfl,
    C2_rounding_amended.1 demoOracle { batch_size := 2 } [] [] false
      pollingEmptyRes rfl,
    by rw [abs_sub_comm, abs_of_nonneg (by norm_num)]; norm_num,
    C2_rounding_amended.2 (1234 / 10000) (1236 / 10000)
      (by rw [abs_sub_comm, abs_of_nonneg (by norm_num)]; norm_num)⟩

/-- C3: for every batch size `b > 1`, `polling_evaluation`'s slicing
(`test_cases[i*b:(i+1)*b]` for `i in range(ceil(n/b))`, embedded as
`batchSlices`) produces exactly `⌈n/b⌉` consecutive, non-overlapping batches —
their concatenation is the input, their sizes sum to `n` — with every batch
except possibly the last of size exactly `b`. -/
theorem C3_batching (pe : PollingEvaluation) (tcs : List LLMTestCase)
    (hb : 1 < pe.batch_size) :
    (batchSlices pe.batch_size.toNat tcs).length =
      (tcs.length + pe.batch_size.toNat - 1) / pe.batch_size.toNat ∧
    (batchSlices pe.batch_size.toNat tcs).flatten = tcs ∧
    ((batchSlices pe.batch_size.toNat tcs).map List.length).sum = tcs.length ∧
    ∀ x ∈ (batchSlices pe.batch_size.toNat tcs).dropLast,
      x.length = pe.batch_size.toNat := by
  have hb1 : 1 ≤ pe.batch_size.toNat := by omega
  exact ⟨batchSlices_length _ _, batchSlices_flatten hb1 tcs,
    batchSlices_sizes_sum hb1 tcs, batchSlices_dropLast hb1 tcs⟩

/-- Witness for C3 at the spec's scenario: 7 cases, batch size 3 — 3 batches
of sizes 3, 3, 1. -/
theorem C3_batching_witness :
    (1 < (3 : ℤ)) ∧
    ((batchSlices (3 : ℤ).toNat demoCases7).length =
        (demoCases7.length + (3 : ℤ).toNat - 1) / (3 : ℤ).toNat ∧
      (batchSlices (3 : ℤ).toNat demoCases7).flatten = demoCases7 ∧
      ((batchSlices (3 : ℤ).toNat demoCases7).map List.length).sum =
        demoCases7.length ∧
      ∀ x ∈ (batchSlices (3 : ℤ).toNat demoCases7).dropLast,
        x.length = (3 : ℤ).toNat) ∧
    (batchSlices (3 : ℤ).toNat demoCases7).map List.length = [3, 3, 1] :=
  ⟨by decide, C3_batching { batch_size := 3 } demoCases7 (by decide), by decide⟩

/-- C4 (code bug): the claim — every test case evaluated by every judge
exactly once before aggregation, score lists of length `n` positionally
aligned — restates §3's invariant, the evident intent, but no such run
exists: every (batch, judge) evaluation raises the metric-construction
`TypeError` at line 353, so `polling_evaluation` over the spec's 7-case,
2-judge scenario aborts during the first batch, its accumulators never
returned.  This theorem evaluates the embedded code at the failing input. -/
theorem C4_type_error :
    polling_evaluation demoOracle { batch_size := 3 }
      (demoCases7.map RawTestCase.structured) demoModels false =
      .error typeErrorMsg := by
  rfl

/-- C6 is false as stated: no `AnswerCorrectnessMetric` is ever constructed —
at a concrete (batch, judge) evaluation with `show_eval_progress = False`,
the construction call `AnswerCorrectnessMetric(model=model,
threshold=threshhold)` raises a `TypeError` (the keyword is `model`, the
constructor's parameter `evaluation_model`), so in particular no metric with
threshold `False`/`0` is used for any evaluation. -/
theorem C6_threshold_cex :
    evaluate_answer_correctness demoOracle demoCases (EvalModel.named "m")
      (pyBoolRat false) = .error typeErrorMsg ∧
    typeErrorMsg =
      "TypeError: __init__() got an unexpected keyword argument \x27model\x27" :=
  ⟨rfl, rfl⟩

/-- C6 (amended): `polling_evaluation` does hand `show_eval_progress`
positionally into `evaluate_answer_correctness`'s `threshhold` parameter (see
`pollingCore`, which passes `pyBoolRat show_eval_progress` as that argument),
and as a number the flag is `0` (`False`) or `1` (`True`), never the
documented `0.8` default — but the metric construction
`AnswerCorrectnessMetric(model=model, threshold=threshhold)` raises a
`TypeError` because the constructor's parameter is `evaluation_model`, so no
metric is ever constructed: every evaluation call fails with that error, and
with it every run over at least one test case and one judge. -/
theorem C6_threshold_amended :
    (∀ (O : JudgeOracle) (batch : List LLMTestCase) (model : EvalModel) (p : Bool),
      evaluate_answer_correctness O batch model (pyBoolRat p) =
        .error typeErrorMsg) ∧
    (∀ p : Bool, pyBoolRat p = 0 ∨ pyBoolRat p = 1) ∧
    (∀ p : Bool, pyBoolRat p ≠ 8 / 10) ∧
    (∀ (O : JudgeOracle) (pe : PollingEvaluation) (tcs : List LLMTestCase)
        (models : List EvalModel) (p : Bool),
      1 < pe.batch_size → tcs ≠ [] → models ≠ [] →
      polling_evaluation O pe (tcs.map RawTestCase.structured) models p =
        .error typeErrorMsg) := by
  refine ⟨fun _ _ _ _ => rfl, ?_, ?_, ?_⟩
  · intro p
    cases p
    · exact Or.inl rfl
    · exact Or.inr rfl
  · intro p
    cases p <;> norm_num [pyBoolRat]
  · intro O pe tcs models p hb ht hm
    exact polling_nontrivial_error O pe tcs models p hb ht hm

/-- Witness for C6 (amended): a concrete non-empty run fails with the
`TypeError`. -/
theorem C6_threshold_amended_witness :
    (1 < (2 : ℤ)) ∧ (demoCases ≠ []) ∧ (demoModels ≠ []) ∧
    polling_evaluation demoOracle { batch_size := 2 }
      (demoCases.map RawTestCase.structured) demoModels false =
      .error typeErrorMsg :=
  ⟨by decide, by decide, by decide,
    C6_threshold_amended.2.2.2 demoOracle { batch_size := 2 } demoCases demoModels
      false (by decide) (by decide) (by decide)⟩

/-- C7: `_check_test_case_types` passes a list of `LLMTestCase` objects
through unchanged, converts a list of records holding the keys `input`,
`actual_output` and `retrieval_context` into the same test cases
(round-trip), and raises the `ValueError` whose message names the three
required keys for any other input — in particular a dict missing the
`retrieval_context` key fails conversion (the Evaluation Input triple,
modelled from the spec) and every list beginning with such a dict triggers
that error. -/
theorem C7_validation :
    (∀ tcs : List LLMTestCase,
      check_test_case_types (tcs.map RawTestCase.structured) = .ok tcs) ∧
    (∀ tcs : List LLMTestCase,
      check_test_case_types (tcs.map fun tc =>
        RawTestCase.record (some tc.input) (some tc.actual_output)
          (some tc.retrieval_context)) = .ok tcs) ∧
    (∀ (l : List RawTestCase) (i a : Option String) (c : Option (List String)),
      l.head? = some (RawTestCase.record i a c) →
      (∃ x ∈ l, x.toTestCase = none) →
      check_test_case_types l = .error requiredKeysMsg) ∧
    (∀ l : List RawTestCase, l.all RawTestCase.isStructured = false →
      (∀ i a c, l.head? ≠ some (RawTestCase.record i a c)) →
      check_test_case_types l = .error requiredKeysMsg) ∧
    (RawTestCase.record (some "q") (some "ans") none).toTestCase = none ∧
    requiredKeysMsg = "Test cases must be a list of LLMTestCase objects or a list of dictionaries containing the keys: [\x27input\x27, \x27actual_output\x27, \x27retrieval_context\x27]" :=
  ⟨check_test_case_types_structured, check_test_case_types_records,
    check_test_case_types_head_record_fail,
    check_test_case_types_other, rfl, rfl⟩

/-- Witness for C7: a one-dict list missing `retrieval_context` raises the
key-naming `ValueError`. -/
theorem C7_validation_witness :
    ([RawTestCase.record (some "q") (some "ans") none].head? =
      some (RawTestCase.record (some "q") (some "ans") none)) ∧
    (∃ x ∈ [RawTestCase.record (some "q") (some "ans") none],
      RawTestCase.toTestCase x = none) ∧
    check_test_case_types [RawTestCase.record (some "q") (some "ans") none] =
      .error requiredKeysMsg :=
  ⟨rfl, ⟨RawTestCase.record (some "q") (some "ans") none, by decide, rfl⟩,
    C7_validation.2.2.1 [RawTestCase.record (some "q") (some "ans") none]
      (some "q") (some "ans") none rfl
      ⟨RawTestCase.record (some "q") (some "ans") none, by decide, rfl⟩⟩

/-- C8: constructing `PollingEvaluation` with any batch size ≤ 1 raises the
configuration `ValueError` at construction — no instance exists afterwards,
so the failure is never deferred to evaluation-call time — and any batch
size > 1 constructs successfully. -/
theorem C8_batch_size (bs : ℤ) :
    (bs ≤ 1 → PollingEvaluation.init bs = .error "Batch size must be greater than 1") ∧
    (1 < bs → PollingEvaluation.init bs = .ok { batch_size := bs }) := by
  constructor
  · intro h
    unfold PollingEvaluation.init
    rw [if_pos h]
  · intro h
    unfold PollingEvaluation.init
    rw [if_neg (by omega)]

/-- Witness for C8 at batch sizes 1 and 2. -/
theorem C8_batch_size_witness :
    ((1 : ℤ) ≤ 1 ∧
      PollingEvaluation.init 1 = .error "Batch size must be greater than 1") ∧
    (1 < (2 : ℤ) ∧ PollingEvaluation.init 2 = .ok { batch_size := 2 }) :=
  ⟨⟨by decide, (C8_batch_size 1).1 (by decide)⟩,
    ⟨by decide, (C8_batch_size 2).2 (by decide)⟩⟩

/-- C9, counterexample as stated: the Cohere adapter's sentinel is the
capitalised "No message returned", not "no message returned"; and a present
Anthropic message whose content list is empty is not tolerated — `generate`
indexes `content[0]` and raises instead of returning any sentinel. -/
theorem C9_sentinel_cex :
    demoCohere.generate none = "No message returned" ∧
    "No message returned" ≠ "no message returned" ∧
    demoAnthropic.generate (some { content := [] }) =
      .error "IndexError: list index out of range" :=
  ⟨rfl, by decide, rfl⟩

/-- C9 (amended): each adapter returns a sentinel without raising only when
the backend's response is falsy/absent — "No message returned" (capitalised)
for Cohere, "no message returned" for Anthropic and Azure OpenAI.  A present
but empty response is not protected: Cohere returns the response's text
unchanged (even when empty), while Anthropic and Azure index into the empty
content/choices list and raise an `IndexError`. -/
theorem C9_sentinel_amended :
    (∀ self : CustomCohere,
      self.generate none = "No message returned" ∧
      self.a_generate none = "No message returned" ∧
      ∀ r : CohereResponse, self.generate (some r) = r.text) ∧
    (∀ self : CustomAnthropic,
      self.generate none = .ok "no message returned" ∧
      self.a_generate none = .ok "no message returned" ∧
      self.generate (some { content := [] }) =
        .error "IndexError: list index out of range" ∧
      self.a_generate (some { content := [] }) =
        .error "IndexError: list index out of range") ∧
    (∀ (self : CustomAzureOpenAI) (env : Env) (ep : String),
      env "AZURE_OPENAI_ENDPOINT" = some ep →
        self.generate env none = .ok "no message returned" ∧
        self.a_generate env none = .ok "no message returned" ∧
        self.generate env (some { choices := [] }) =
          .error "IndexError: list index out of range" ∧
        self.a_generate env (some { choices := [] }) =
          .error "IndexError: list index out of range") := by
  refine ⟨fun self => ⟨rfl, rfl, fun r => rfl⟩,
    fun self => ⟨rfl, rfl, rfl, rfl⟩, ?_⟩
  intro self env ep h
  refine ⟨?_, ?_, ?_, ?_⟩ <;>
    simp [CustomAzureOpenAI.generate, CustomAzureOpenAI.a_generate,
      CustomAzureOpenAI.load_model, h]

/-- Witness for C9 (amended) with the endpoint variable set. -/
theorem C9_sentinel_amended_witness :
    ((fun _ => some "e" : Env) "AZURE_OPENAI_ENDPOINT" = some "e") ∧
    (demoAzure.generate (fun _ => some "e") none = .ok "no message returned" ∧
      demoAzure.a_generate (fun _ => some "e") none = .ok "no message returned" ∧
      demoAzure.generate (fun _ => some "e") (some { choices := [] }) =
        .error "IndexError: list index out of range" ∧
      demoAzure.a_generate (fun _ => some "e") (some { choices := [] }) =
        .error "IndexError: list index out of range") :=
  ⟨rfl, C9_sentinel_amended.2.2 demoAzure (fun _ => some "e") "e" rfl⟩

/-- C10, counterexample as stated: the Azure OpenAI adapter family reads no
environment variable at construction — construction succeeds with every
variable absent, and the missing `AZURE_OPENAI_ENDPOINT` only raises a
`KeyError` when the client is loaded inside the first `generate` call. -/
theorem C10_api_key_cex :
    CustomAzureOpenAI.init "gpt-4" = { model := "gpt-4" } ∧
    CustomAzureOpenAI.load_model emptyEnv =
      .error "KeyError: AZURE_OPENAI_ENDPOINT" ∧
    demoAzure.generate emptyEnv (some { choices := [{ message_content := "hi" }] }) =
      .error "KeyError: AZURE_OPENAI_ENDPOINT" :=
  ⟨rfl, rfl, rfl⟩

/-- C10 (amended): the Cohere and Anthropic adapters resolve their credential
at construction — from `COHERE_API_KEY` / `ANTHROPIC_API_KEY` when no explicit
key is given — and raise the descriptive `ValueError` naming the variable
when it is absent; the Azure OpenAI adapter stores only the deployment name
at construction and reads `AZURE_OPENAI_ENDPOINT` (a `KeyError` when absent)
and the key/version (`os.getenv`, silently `None`) only when a client is
loaded at call time. -/
theorem C10_api_key_amended :
    (∀ (env : Env) (model : String), env "COHERE_API_KEY" = none →
      CustomCohere.init env model none = .error
        "Default api_key expects COHERE_API_KEY environment variable. Check that you have this variable or pass in another api_key.") ∧
    (∀ (env : Env) (model : String) (v : String), env "COHERE_API_KEY" = some v →
      CustomCohere.init env model none = .ok { model := model, api_key := v }) ∧
    (∀ (env : Env) (model : String), env "ANTHROPIC_API_KEY" = none →
      CustomAnthropic.init env model none = .error
        "Default api_key expects ANTHROPIC_API_KEY environment variable. Check that you have this variable or pass in another api_key.") ∧
    (∀ (env : Env) (model : String) (v : String), env "ANTHROPIC_API_KEY" = some v →
      CustomAnthropic.init env model none = .ok { model := model, api_key := v }) ∧
    (∀ deployment_name : String,
      CustomAzureOpenAI.init deployment_name = { model := deployment_name }) ∧
    (∀ env : Env, env "AZURE_OPENAI_ENDPOINT" = none →
      CustomAzureOpenAI.load_model env = .error "KeyError: AZURE_OPENAI_ENDPOINT") ∧
    (∀ (env : Env) (ep : String), env "AZURE_OPENAI_ENDPOINT" = some ep →
      CustomAzureOpenAI.load_model env = .ok
        { azure_endpoint := ep
          api_key := env "AZURE_OPENAI_API_KEY"
          api_version := env "AZURE_OPENAI_API_VERSION" }) := by
  refine ⟨?_, ?_, ?_, ?_, fun _ => rfl, ?_, ?_⟩
  · intro env model h
    simp [CustomCohere.init, handle_api_key, pyStrTruthy, CustomApiKeyEnum.value, h,
      Except.map]
  · intro env model v h
    simp [CustomCohere.init, handle_api_key, pyStrTruthy, CustomApiKeyEnum.value, h,
      Except.map]
  · intro env model h
    simp [CustomAnthropic.init, handle_api_key, pyStrTruthy, CustomApiKeyEnum.value, h,
      Except.map]
  · intro env model v h
    simp [CustomAnthropic.init, handle_api_key, pyStrTruthy, CustomApiKeyEnum.value, h,
      Except.map]
  · intro env h
    simp [CustomAzureOpenAI.load_model, h]
  · intro env ep h
    simp [CustomAzureOpenAI.load_model, h]

/-- Witness for C10 (amended): the empty environment yields the descriptive
construction error for Cohere, and a populated one constructs the adapter. -/
theorem C10_api_key_amended_witness :
    (emptyEnv "COHERE_API_KEY" = none) ∧
    CustomCohere.init emptyEnv "command-r" none = .error
      "Default api_key expects COHERE_API_KEY environment variable. Check that you have this variable or pass in another api_key." :=
  ⟨rfl, C10_api_key_amended.1 emptyEnv "command-r" rfl⟩
